import Mathlib

/-!
Verification of the TrendingSniperPython exchange gateway
(`src/api/binance_client.py`) against its specification.

The Python code works on IEEE floats and `datetime` values; the embedding
models numeric values as exact rationals (`ℚ`) and instants as rational
seconds.  Remote calls (the Binance REST API) are modelled as explicit
oracle arguments (`Option`-valued fetch results, sell outcomes), and the
mutable dictionaries of the client become explicit values threaded through
the functions.
-/

set_option autoImplicit false

namespace TrendingSniper

/-! ## Quantization (`_format_quantity`, binance_client.py lines 769-783)

The Python code is

    if step_size == 0: return quantity
    precision = int(round(-math.log10(float(step_size))))
    truncated = math.floor(quantity / float(step_size)) * float(step_size)
    formatted = "{:0.{}f}".format(truncated, precision)
    return float(formatted)

`round` is round-half-to-even, but a tie would force `log10 step_size` to be
a half-integer, i.e. `step_size = 10 ^ (k + 1/2)`, which is irrational; so on
rational inputs no tie occurs and `round (-log10 s)` is the unique integer
`n` with `n - 1/2 < -log10 s < n + 1/2`, equivalently
`-2*n < 1 + 2*log10 s < -2*n + 2`.  Hence with `L = ⌊log10 (10*s^2)⌋`
(which is `Int.log 10 (10*s^2)`) we get `L ∈ {-2*n, -2*n+1}` and
`n = -(L / 2)` using floor division on `ℤ` (Lean's `/` on `ℤ` rounds down
for the positive divisor 2).

`"{:0.{}f}".format(t, p)` raises `ValueError` when `p < 0` and otherwise
renders `t` rounded half-to-even to `p` decimal places; `math.log10` raises
a domain error on negative input.  Both exceptional exits are modelled by
`none`. -/

/-- Round half to even over `ℚ`, as Python's float formatting does. -/
def roundHalfEven (x : ℚ) : ℤ :=
  if x - ⌊x⌋ = 1/2 then (if ⌊x⌋ % 2 = 0 then ⌊x⌋ else ⌊x⌋ + 1) else round x

/-- Shallow embedding of `BinanceClient._format_quantity`.  `none` models an
uncaught `ValueError` (negative printing precision, or `log10` of a negative
step size). -/
def formatQuantity (quantity step_size : ℚ) : Option ℚ :=
  if step_size = 0 then some quantity
  else if step_size < 0 then none
  else
    let precision : ℤ := -((Int.log 10 (10 * step_size^2)) / 2)
    let truncated : ℚ := ⌊quantity / step_size⌋ * step_size
    if precision < 0 then none
    else some ((roundHalfEven (truncated * 10^precision.toNat) : ℚ) / 10^precision.toNat)

/-! ## Helper lemmas for evaluating `Int.log` -/

/-- Squeeze characterisation of `Int.log` used to evaluate it on
concrete rational inputs. -/
theorem int_log_eq_of_between {r : ℚ} {n : ℤ} (hr : 0 < r)
    (h1 : ((10:ℕ):ℚ)^n ≤ r) (h2 : r < ((10:ℕ):ℚ)^(n+1)) :
    Int.log 10 r = n := by
  have h3 := (Int.zpow_le_iff_le_log (by norm_num) hr).1 h1
  have h4 := (Int.lt_zpow_iff_log_lt (by norm_num) hr).1 h2
  omega

theorem pow10_step_log (p : ℕ) :
    Int.log 10 ((10:ℚ) * (1/10^p)^2) = (1:ℤ) - 2*p := by
  have h : (10:ℚ) * (1/10^p)^2 = ((10:ℕ):ℚ)^((1:ℤ) - 2*p) := by
    have h10 : ((10:ℕ):ℚ) = (10:ℚ) := by norm_num
    rw [h10, zpow_sub₀ (by norm_num : (10:ℚ) ≠ 0), zpow_one,
      show ((2:ℤ)*p) = ((2*p : ℕ) : ℤ) by push_cast; ring, zpow_natCast, pow_mul]
    have hp : ((10:ℚ)^p) ≠ 0 := by positivity
    field_simp
    rw [← pow_mul, ← pow_mul, Nat.mul_comm]
  rw [h, Int.log_zpow (by norm_num)]

/-! ## Data model

`Config` mirrors the attributes of `src/utils/config.py` that the gateway
reads; percentages are already divided by 100 where the loader does so.
`TrackedOrder` mirrors the order dictionaries stored in
`self.open_orders[symbol]` (binance_client.py lines 685-704 plus the fields
added later by `check_order_status`).  `sell_attempts` defaults to `0` and
`trailing_distance` is only present once stored, hence the `Option`. -/

structure Config where
  quote_asset : String
  max_active_coins : ℕ
  min_volume_24h : ℚ
  include_coins : List String
  trading_amount_percent : ℚ
  max_orders_per_coin : ℕ
  min_balance_required : ℚ
  fee_percentage : ℚ
  profit_target : ℚ
  stop_loss : ℚ
  high_vol_profit_target : ℚ
  high_vol_stop_loss : ℚ
  high_volatility_threshold : ℚ
  trailing_stop : Bool
  trailing_stop_activation : ℚ
  trailing_stop_distance : ℚ
  uptrend_required : Bool
  deriving DecidableEq

structure TrackedOrder where
  orderId : ℤ
  symbol : String
  entry_price : ℚ
  executedQty : ℚ
  target_price : ℚ
  stop_loss_price : ℚ
  initial_stop_loss : ℚ
  highest_price : ℚ
  trailing_activated : Bool
  trailing_distance : Option ℚ
  volatility : ℚ
  is_high_volatility : Bool
  sell_attempts : ℕ
  selling_in_progress : Bool
  profit_loss : ℚ
  buy_time : ℚ
  deriving DecidableEq

/-! ## Trailing-stop evaluation (`check_order_status`, lines 1087-1138)

`trailingActivate` is the new-high / activation block (lines 1087-1124) and
`trailingRatchet` the ratchet-on-highest block (lines 1126-1138).  Python
literals `1.5`, `0.8`, `0.3`, `2.0` become `3/2`, `4/5`, `3/10`, `2`.
`progress_to_target` divides by `profit_target * 100`; `ℚ` division is total
where Python would raise `ZeroDivisionError` for a zero profit target, a
configuration the loader cannot produce. -/

def trailingActivate (cfg : Config) (o : TrackedOrder) (price : ℚ) : TrackedOrder :=
  if o.highest_price < price then
    let o' := {o with highest_price := price}
    if cfg.trailing_stop ∧ ¬o'.trailing_activated then
      let profit_target_value :=
        if o'.is_high_volatility then cfg.high_vol_profit_target else cfg.profit_target
      let progress_to_target := o'.profit_loss / (profit_target_value * 100)
      let activation_threshold :=
        if cfg.high_volatility_threshold * (3/2) < o'.volatility
        then cfg.trailing_stop_activation * (4/5) else cfg.trailing_stop_activation
      if activation_threshold ≤ progress_to_target then
        let o'' := {o' with trailing_activated := true}
        let trailing_distance :=
          if o''.is_high_volatility then
            let volatility_factor := min (o''.volatility / cfg.high_volatility_threshold) 2
            cfg.trailing_stop_distance * (1 + (volatility_factor - 1) * (3/10))
          else cfg.trailing_stop_distance
        let new_stop_loss := price * (1 - trailing_distance)
        if o''.stop_loss_price < new_stop_loss then
          {o'' with stop_loss_price := new_stop_loss, trailing_distance := some trailing_distance}
        else o''
      else o'
    else o'
  else o

def trailingRatchet (cfg : Config) (o : TrackedOrder) : TrackedOrder :=
  if o.trailing_activated then
    let trailing_distance := o.trailing_distance.getD cfg.trailing_stop_distance
    let new_stop_loss := o.highest_price * (1 - trailing_distance)
    if o.stop_loss_price < new_stop_loss then {o with stop_loss_price := new_stop_loss} else o
  else o

/-- One evaluation of a tracked order against a price observation: the
profit/loss update of lines 1072-1075 followed by the whole trailing-stop
section, lines 1087-1138. -/
def updateOrderOnPrice (cfg : Config) (o : TrackedOrder) (price : ℚ) : TrackedOrder :=
  let o₁ := {o with profit_loss := (price - o.entry_price) / o.entry_price * 100}
  trailingRatchet cfg (trailingActivate cfg o₁ price)

/-! ## Per-order body of `check_order_status` (lines 1047-1180)

`place_sell_order` is a remote, stateful call; it is abstracted by an oracle
`sell : ℤ → SellCallResult` giving, per order id, the three outcomes the
source can produce:
* `ok`         — the sell succeeded; `place_sell_order` removed the order
                 from tracking and returned the sell order;
* `failKeep`   — `place_sell_order` returned `None` and the order is still
                 tracked (problem check, missing order, zero balance rules
                 aside, the generic API-error path at lines 893-911);
* `failRemove` — the `-2010 insufficient balance` path (lines 902-908):
                 `place_sell_order` returns `None`, drops the order from
                 tracking and itself runs `_check_and_fix_ghost_orders`. -/

inductive SellCallResult where
  | ok
  | failKeep
  | failRemove
  deriving DecidableEq

/-- Outcome of `check_order_status`'s loop body for one tracked order:
`kept` is the order as still tracked afterwards (`none` when it was marked
for removal or removed by `place_sell_order`), `sellAttempted` records
whether `place_sell_order` was called, and `ghostForced` whether
`_check_and_fix_ghost_orders` was triggered for the symbol. -/
structure OrderCheckOutcome where
  kept : Option TrackedOrder
  sellAttempted : Bool
  ghostForced : Bool
  deriving DecidableEq

def checkOne (cfg : Config) (price : ℚ) (sell : ℤ → SellCallResult)
    (o : TrackedOrder) : OrderCheckOutcome :=
  let o₁ := {o with profit_loss := (price - o.entry_price) / o.entry_price * 100}
  if 3 ≤ o₁.sell_attempts then
    { kept := none, sellAttempted := false, ghostForced := false }
  else
    let o₂ := trailingRatchet cfg (trailingActivate cfg o₁ price)
    if o₂.selling_in_progress then
      { kept := some o₂, sellAttempted := false, ghostForced := false }
    else if o₂.target_price ≤ price ∨ price ≤ o₂.stop_loss_price then
      match sell o.orderId with
      | .ok => { kept := none, sellAttempted := true, ghostForced := false }
      | .failKeep =>
        let o₃ := {o₂ with sell_attempts := o₂.sell_attempts + 1}
        { kept := some o₃, sellAttempted := true, ghostForced := 3 ≤ o₃.sell_attempts }
      | .failRemove =>
        { kept := none, sellAttempted := true, ghostForced := true }
    else
      { kept := some o₂, sellAttempted := false, ghostForced := false }

/-- `check_order_status` over one symbol's order list: with no price the list
is untouched (line 1061-1062); otherwise each order is processed in turn and
the orders marked for removal are dropped (lines 1176-1180). -/
def checkSymbolOrders (cfg : Config) (price : Option ℚ) (sell : ℤ → SellCallResult)
    (orders : List TrackedOrder) : List TrackedOrder × Bool :=
  match price with
  | none => (orders, false)
  | some p =>
    orders.foldl
      (fun acc o =>
        let r := checkOne cfg p sell o
        (acc.1 ++ r.kept.toList, acc.2 || r.ghostForced))
      ([], false)

/-! ## Rate limiter (`_make_request` preamble, lines 99-127)

The counters guarded by `rate_limit_lock`; `now` is the instant of the call
in seconds and a sleep of `d` seconds is modelled by waking at `now + d`. -/

structure RLState where
  request_weight : ℕ
  request_count : ℕ
  last_request_reset : ℚ
  deriving DecidableEq

structure RLOutcome where
  state : RLState
  waited : Bool
  deriving DecidableEq

def rlCharge (max_weight_per_minute : ℕ) (st : RLState) (now : ℚ) (weight : ℕ) : RLOutcome :=
  let st₁ := if 60 < now - st.last_request_reset
    then { request_weight := 0, request_count := 0, last_request_reset := now }
    else st
  if max_weight_per_minute < st₁.request_weight + weight then
    let time_to_wait := 60 - (now - st₁.last_request_reset)
    if 0 < time_to_wait then
      { state := { request_weight := 0 + weight, request_count := 0 + 1,
                   last_request_reset := now + time_to_wait },
        waited := true }
    else
      { state := { st₁ with request_weight := st₁.request_weight + weight,
                            request_count := st₁.request_count + 1 },
        waited := false }
  else
    { state := { st₁ with request_weight := st₁.request_weight + weight,
                          request_count := st₁.request_count + 1 },
      waited := false }

/-! ## Cached reads

Each getter takes the relevant slice of `self.cache`, the current instant,
and the would-be result of the remote call (`none` = `BinanceAPIException`),
returning the Python return value together with the updated cache.  Python
dictionaries become association lists whose meaning is `List.lookup`; a
dict update `d[k] = v` is modelled by consing `(k, v)`. -/

/-- Cache slice `self.cache['ticker_prices']` (expiry 5 s). -/
structure PriceCache where
  data : List (String × ℚ)
  timestamp : Option ℚ
  deriving DecidableEq

/-- Shallow embedding of `get_ticker_price` (lines 362-408).  `fetchAll` is
the outcome of `client.get_all_tickers`, `fetchOne` that of
`client.get_symbol_ticker` for `sym`; only one of them is consulted,
matching the branch at line 377. -/
def getTickerPrice (c : PriceCache) (now : ℚ) (sym : String)
    (fetchAll : Option (List (String × ℚ))) (fetchOne : Option ℚ) :
    Option ℚ × PriceCache :=
  let hit : Option ℚ :=
    match c.data.lookup sym, c.timestamp with
    | some p, some t => if now - t < 5 then some p else none
    | _, _ => none
  match hit with
  | some p => (some p, c)
  | none =>
    let useAll : Bool :=
      match c.timestamp with
      | none => true
      | some t => decide (5 < now - t)
    if useAll then
      match fetchAll with
      | some prices => (prices.lookup sym, { data := prices, timestamp := some now })
      | none => (c.data.lookup sym, c)
    else
      match fetchOne with
      | some p => (some p, { c with data := (sym, p) :: c.data })
      | none => (c.data.lookup sym, c)

/-- One asset's row of the account-balance response. -/
structure BalanceEntry where
  asset : String
  free : ℚ
  locked : ℚ
  deriving DecidableEq

/-- Cache slice `self.cache['account_balance']` (expiry 10 s). -/
structure BalCache where
  data : Option (List BalanceEntry)
  timestamp : Option ℚ
  deriving DecidableEq

/-- Python truthiness of the cached balance dict: present and non-empty. -/
def balDataTruthy : Option (List BalanceEntry) → Bool
  | none => false
  | some d => !d.isEmpty

/-- Shallow embedding of `get_account_balance` (lines 1182-1225).  `fetch`
is the raw `account['balances']` list, or `none` on `BinanceAPIException`.
Note the pre-fetch `timestamp = now` write at line 1198 and the
`cache_age < 60` guard of the stale fallback at line 1221. -/
def getAccountBalance (c : BalCache) (now : ℚ) (fetch : Option (List BalanceEntry)) :
    Option (List BalanceEntry) × BalCache :=
  let cache_age : ℚ :=
    match c.data, c.timestamp with
    | some d, some t => if d.isEmpty then 0 else now - t
    | _, _ => 0
  let hit : Bool :=
    match c.data, c.timestamp with
    | some d, some t => !d.isEmpty && decide (now - t < 10)
    | _, _ => false
  if hit then (c.data, c)
  else
    match fetch with
    | some raw =>
      let balances := raw.filter (fun b => 0 < b.free ∨ 0 < b.locked)
      (some balances, { data := some balances, timestamp := some now })
    | none =>
      if cache_age < 60 ∧ balDataTruthy c.data
      then (c.data, { c with timestamp := some now })
      else (none, { c with timestamp := some now })

/-- Shallow embedding of `get_symbol_info` (lines 1359-1391); the cached
payload (`client.get_symbol_info`'s dict) is opaque, hence the type
parameter.  Cache entries are `(symbol, (data, timestamp))`, TTL 24 h. -/
def getSymbolInfo {α : Type} (cache : List (String × (α × ℚ))) (now : ℚ)
    (sym : String) (fetch : Option α) :
    Option α × List (String × (α × ℚ)) :=
  let fresh : Option α :=
    match cache.lookup sym with
    | some (info, t) => if now - t < 86400 then some info else none
    | none => none
  match fresh with
  | some info => (some info, cache)
  | none =>
    match fetch with
    | some info => (some info, (sym, (info, now)) :: cache)
    | none =>
      match cache.lookup sym with
      | some (info, _) => (some info, cache)
      | none => (none, cache)

/-! ## Problem symbols and recent signals (`_check_symbol_problems`,
lines 466-498, and the quarantine filter of `select_active_coins`,
lines 246-259)

`Problem` is one entry of `self.problem_symbols` (`expiry_hours` read with
default 24 at the call sites; the field stores the value present in the
dict).  The functions below give the per-symbol view: the entry for the
symbol before the call, and the entry that remains after it (the source
deletes expired entries in place). -/

structure Problem where
  reason : String
  timestamp : ℚ
  expiry_hours : ℚ
  deriving DecidableEq

/-- Why a buy is rejected: an active quarantine entry, or a recent-signal
suppression (the formatted message of line 496 carries the elapsed
minutes). -/
inductive ProblemVerdict where
  | problem (reason : String)
  | recentSignal (minutes_since_signal : ℚ)
  deriving DecidableEq

/-- Shallow embedding of `_check_symbol_problems`: given the symbol's
`problem_symbols` entry and its `recent_signals` timestamp, returns the
rejection verdict (`none` = symbol may be traded) and the problem entry
still recorded afterwards. -/
def checkSymbolProblems (prob : Option Problem) (recent : Option ℚ) (now : ℚ) :
    Option ProblemVerdict × Option Problem :=
  match prob with
  | some p =>
    if (now - p.timestamp) / 3600 < p.expiry_hours
    then (some (.problem p.reason), some p)
    else (none, none)
  | none =>
    match recent with
    | some t =>
      let minutes_since_signal := (now - t) / 60
      if minutes_since_signal < 15
      then (some (.recentSignal minutes_since_signal), none)
      else (none, none)
    | none => (none, none)

/-- The quarantine test of `select_active_coins` (lines 246-259): whether the
symbol is skipped, and the problem entry remaining afterwards. -/
def selectQuarantineCheck (prob : Option Problem) (now : ℚ) : Bool × Option Problem :=
  match prob with
  | some p =>
    if (now - p.timestamp) / 3600 < p.expiry_hours
    then (true, some p)
    else (false, none)
  | none => (false, none)

/-! ## Coin selection (`select_active_coins`, lines 226-360)

String scanning helpers are written over `List Char` (the representation of
`String`) so that concrete instances reduce inside the kernel. -/

def listEndsWith (l suffix_chars : List Char) : Bool :=
  suffix_chars == l.drop (l.length - suffix_chars.length)

def startsWithSeg : List Char → List Char → Bool
  | _, [] => true
  | [], _ :: _ => false
  | a :: l, b :: p => a == b && startsWithSeg l p

def containsSeg : List Char → List Char → Bool
  | [], p => p.isEmpty
  | l@(_ :: t), p => startsWithSeg l p || containsSeg t p

/-- The stable-pair exclusion of lines 238-242. -/
def isStableExcluded (symbol base_asset : String) : Bool :=
  listEndsWith symbol.data "USDT".data &&
    (containsSeg base_asset.data "USD".data ||
      base_asset ∈ ["DAI", "PAX", "SUSD", "USDK", "GUSD", "HUSD", "USDN"] ||
      symbol ∈ ["BUSDUSDT", "USDCUSDT", "TUSDUSDT", "DAIUSDT"])

/-- One row of `self.ticker_stats` (lines 212-218). -/
structure TickerStat where
  price : ℚ
  volume_24h : ℚ
  price_change_24h_pct : ℚ
  base_asset : String
  deriving DecidableEq

/-- The combined volume/volatility score of lines 268-279. -/
def coinScore (cfg : Config) (st : TickerStat) : ℚ :=
  let volume_score := min 100 (st.volume_24h / cfg.min_volume_24h * 10)
  let volatility_score := min 100 (|st.price_change_24h_pct| * 2)
  volume_score * (6/10) + volatility_score * (4/10)

/-- Whether a symbol is skipped by the quarantine filter inside the
selection loop (line 247-255). -/
def quarantineActiveAt (problems : List (String × Problem)) (symbol : String) (now : ℚ) : Bool :=
  match problems.lookup symbol with
  | some p => decide ((now - p.timestamp) / 3600 < p.expiry_hours)
  | none => false

/-- The candidate pairs after the stablecoin, quarantine, volume and
(optional) uptrend gates, sorted by descending score (lines 233-298).
`List.insertionSort` with `coinScore b ≤ coinScore a` is a stable descending
sort, matching Python's `sorted(..., reverse=True)`. -/
def rankedPairs (cfg : Config) (now : ℚ) (tickerStats : List (String × TickerStat))
    (problems : List (String × Problem)) : List (String × TickerStat) :=
  let filtered := tickerStats.filter (fun p =>
    !isStableExcluded p.1 p.2.base_asset &&
    !quarantineActiveAt problems p.1 now &&
    decide (cfg.min_volume_24h ≤ p.2.volume_24h))
  let high_volume := if cfg.uptrend_required
    then filtered.filter (fun p => decide (0 < p.2.price_change_24h_pct))
    else filtered
  List.insertionSort (fun a b => coinScore cfg b.2 ≤ coinScore cfg a.2) high_volume

/-- The force-included symbols of lines 300-314: allow-list entries found in
`ticker_stats` that pass the volume gate and, when required, the uptrend
gate. -/
def forcedCoins (cfg : Config) (tickerStats : List (String × TickerStat)) : List String :=
  cfg.include_coins.filterMap (fun base =>
    let symbol := base ++ cfg.quote_asset
    match tickerStats.lookup symbol with
    | some st =>
      if cfg.min_volume_24h ≤ st.volume_24h ∧ (!cfg.uptrend_required ∨ 0 < st.price_change_24h_pct)
      then some symbol
      else none
    | none => none)

/-- The fill loop of lines 318-328: walk the score-sorted pairs, skip symbols
already present, append, and stop once the accumulated list has reached
`max_active_coins` — the length test runs only after an append. -/
def fillActiveCoins (max_active_coins : ℕ) :
    List (String × TickerStat) → List String → List String
  | [], acc => acc
  | (symbol, _) :: rest, acc =>
    if symbol ∈ acc then fillActiveCoins max_active_coins rest acc
    else
      let acc' := acc ++ [symbol]
      if max_active_coins ≤ acc'.length then acc'
      else fillActiveCoins max_active_coins rest acc'

/-- Shallow embedding of the universe computed by `select_active_coins`
(its return value / new `self.active_coins`). -/
def selectActiveCoins (cfg : Config) (now : ℚ) (tickerStats : List (String × TickerStat))
    (problems : List (String × Problem)) : List String :=
  fillActiveCoins cfg.max_active_coins (rankedPairs cfg now tickerStats problems)
    (forcedCoins cfg tickerStats)

/-! ## Ghost-order reconciliation (`_check_and_fix_ghost_orders`,
lines 1250-1357)

Inputs: the instant `now`, the exchange's live open BUY order ids for the
symbol (`none` models `get_open_orders` failing with an API error, in which
case the old order is not marked), the base asset, the balances as returned
by `get_account_balance` (`none` = fetch failed, falsy when the list is
empty), and the tracked orders of the symbol.  The result is the new
`self.open_orders[symbol]`. -/

/-- Sum of `executedQty` over tracked orders not mid-sell (lines 1286,
1336). -/
def expectedQty (orders : List TrackedOrder) : ℚ :=
  ((orders.filter (fun o => !o.selling_in_progress)).map (·.executedQty)).sum

/-- The while-loop of lines 1346-1351: drop oldest orders until the expected
quantity is within 2% of the actual balance.  The popped order's quantity is
subtracted even when it was excluded from the expected sum (mid-sell), as in
the source. -/
def evictOldest (actual_balance : ℚ) : ℚ → List TrackedOrder → List TrackedOrder
  | _, [] => []
  | expected_balance, o :: rest =>
    if actual_balance * (102/100) < expected_balance
    then evictOldest actual_balance (expected_balance - o.executedQty) rest
    else o :: rest

def checkAndFixGhostOrders (now : ℚ) (exchangeOpenBuyIds : Option (List ℤ))
    (base_asset : String) (balances : Option (List (String × ℚ)))
    (orders : List TrackedOrder) : List TrackedOrder :=
  if orders.isEmpty then orders
  else
    match balances with
    | none => orders
    | some bs =>
      if bs.isEmpty then orders
      else
        let actual_balance := (bs.lookup base_asset).getD 0
        if actual_balance ≤ 0 then []
        else
          let expected_balance := expectedQty orders
          if actual_balance < expected_balance * (1/10) then []
          else
            let ghosts : List ℤ := orders.filterMap (fun o =>
              if o.selling_in_progress then none
              else if 3 ≤ o.sell_attempts then some o.orderId
              else if 86400 < now - o.buy_time then
                match exchangeOpenBuyIds with
                | some ids => if o.orderId ∈ ids then none else some o.orderId
                | none => none
              else none)
            let remaining := orders.filter (fun o => o.orderId ∉ ghosts)
            if remaining.isEmpty then remaining
            else
              let expected₂ := expectedQty remaining
              if actual_balance * (102/100) < expected₂ then
                evictOldest actual_balance expected₂
                  (List.insertionSort (fun a b => a.buy_time ≤ b.buy_time) remaining)
              else remaining

/-! ## Buy sizing (`place_buy_order`, lines 531-639)

The sizing-and-filter section, from the minimum-balance gate to the final
quantity handed to `client.create_order`.  `lot` is the `LOT_SIZE` filter as
`(minQty, stepSize)` (absent filter = `none`; the same filter object backs
the `min_qty_filter` lookup), `notional` the `MIN_NOTIONAL` filter's
`minNotional`.  `none` as result means the buy is aborted (the source
returns `None`, quarantining the symbol) or a `ValueError` escapes
`_format_quantity`. -/

def computeBuyQuantity (cfg : Config) (quote_balance current_price : ℚ)
    (lot : Option (ℚ × ℚ)) (notional : Option ℚ) : Option ℚ :=
  if quote_balance < cfg.min_balance_required then none
  else
    let quote_amount := quote_balance * cfg.trading_amount_percent
    let quantity := quote_amount / current_price
    let afterMinQty : Option ℚ :=
      match lot with
      | some (minQty, _) =>
        if quantity < minQty then
          if minQty * current_price * (105/100) ≤ quote_amount then some minQty else none
        else some quantity
      | none => some quantity
    match afterMinQty with
    | none => none
    | some q₁ =>
      let afterStep : Option ℚ :=
        match lot with
        | some (_, step_size) => formatQuantity q₁ step_size
        | none => some q₁
      match afterStep with
      | none => none
      | some q₂ =>
        match notional with
        | none => some q₂
        | some min_notional =>
          if q₂ * current_price < min_notional then
            if min_notional * (105/100) ≤ quote_balance then
              let new_quantity₀ := min_notional / current_price
              let new_quantity? : Option ℚ :=
                match lot with
                | some (_, step_size) => formatQuantity new_quantity₀ step_size
                | none => some new_quantity₀
              match new_quantity? with
              | none => none
              | some nq =>
                if 0 < nq ∧ min_notional ≤ nq * current_price then some nq else none
            else none
          else some q₂

/-! ## Shared evaluation lemmas -/

theorem roundHalfEven_intCast (k : ℤ) : roundHalfEven (k : ℚ) = k := by
  unfold roundHalfEven
  rw [Int.floor_intCast]
  norm_num

/-- On step sizes of the form `10^(-p)` the decimal re-formatting is the
identity and `_format_quantity` is exactly floor-to-multiple. -/
theorem formatQuantity_pow10 (q : ℚ) (p : ℕ) :
    formatQuantity q (1/10^p) = some ((⌊q * 10^p⌋ : ℚ) / 10^p) := by
  have hpow : (0:ℚ) < 10^p := by positivity
  have h1 : ((1:ℚ)/10^p) ≠ 0 := one_div_ne_zero (ne_of_gt hpow)
  have h2 : ¬ ((1:ℚ)/10^p < 0) := not_lt.2 (le_of_lt (by positivity))
  have hprec : -((Int.log 10 ((10:ℚ) * (1/10^p)^2)) / 2) = (p:ℤ) := by
    rw [pow10_step_log]; omega
  have h3 : ¬ ((p:ℤ) < 0) := by omega
  have hdiv : q / ((1:ℚ)/10^p) = q * 10^p := by field_simp
  have htr : (⌊q * 10^p⌋ : ℚ) * ((1:ℚ)/10^p) * 10^p = (⌊q * 10^p⌋ : ℚ) := by
    field_simp
  rw [formatQuantity, if_neg h1, if_neg h2]
  simp only [hprec, hdiv, if_neg h3, Int.toNat_natCast, htr, roundHalfEven_intCast]

/-! ## Claim C1 — quantization bounds of `_format_quantity` -/

/-- Claim C1, counterexample: at quantity `q = 1.7` and step size `s = 0.5`
(a positive step size), `_format_quantity` returns `2`, which is NOT at most
`q`: the fixed-precision re-formatting (precision `round(-log10 0.5) = 0`)
rounds the floored multiple `1.5` up to `2`.  So the claim as stated is
false. -/
theorem format_quantity_not_le_counterexample :
    formatQuantity (17/10) (1/2) = some 2 ∧ ¬ ((2:ℚ) ≤ 17/10) := by
  constructor
  · have h25 : ((10:ℚ) * (1/2)^2) = 5/2 := by norm_num
    have hlog : Int.log 10 ((10:ℚ) * (1/2)^2) = 0 := by
      rw [h25]
      exact int_log_eq_of_between (by norm_num) (by norm_num) (by norm_num)
    have h1 : ((1:ℚ)/2) ≠ 0 := by norm_num
    have h2 : ¬ ((1:ℚ)/2 < 0) := by norm_num
    rw [formatQuantity, if_neg h1, if_neg h2]
    simp only [hlog]
    norm_num [roundHalfEven]
  · norm_num

/-- Claim C1, amended: for every quantity `q` and every step size of the
form `s = 10^(-p)` with `p : ℕ` — the shape exchange `LOT_SIZE` steps take —
`_format_quantity q s` returns `⌊q/s⌋ * s`, which is at most `q` and an
exact integer multiple of `s`.  (For general `s > 0` the decimal
re-formatting can round up, see the counterexample, and for `s > √10` the
negative precision makes the format call raise.) -/
theorem format_quantity_le_and_multiple_pow10 (q : ℚ) (p : ℕ) :
    ∃ r, formatQuantity q (1/10^p) = some r ∧ r ≤ q ∧ ∃ k : ℤ, r = k * (1/10^p) := by
  refine ⟨(⌊q * 10^p⌋ : ℚ) / 10^p, formatQuantity_pow10 q p, ?_, ⌊q * 10^p⌋, ?_⟩
  · have hpow : (0:ℚ) < 10^p := by positivity
    rw [div_le_iff₀ hpow]
    exact Int.floor_le _
  · rw [mul_one_div]

/-! ## Claim C10 — step size zero is guarded -/

/-- Claim C10: for every quantity `q`, `_format_quantity(q, 0)` returns `q`
unchanged; the `step_size == 0` guard precedes the division and the
logarithm. -/
theorem format_quantity_zero_step (q : ℚ) : formatQuantity q 0 = some q := by
  rw [formatQuantity, if_pos rfl]

/-! ## Claim C7 — the buy-sizing scenario -/

/-- Configuration of the spec's buy scenario: trading fraction 1% and
minimum operating balance 10 (the loader's default); the remaining fields
hold the defaults of `src/utils/config.py`. -/
def scenarioConfig : Config where
  quote_asset := "USDT"
  max_active_coins := 5
  min_volume_24h := 10000000
  include_coins := ["BTC", "ETH"]
  trading_amount_percent := 1/100
  max_orders_per_coin := 3
  min_balance_required := 10
  fee_percentage := 1/10
  profit_target := 12/1000
  stop_loss := 1/100
  high_vol_profit_target := 18/1000
  high_vol_stop_loss := 15/1000
  high_volatility_threshold := 2
  trailing_stop := true
  trailing_stop_activation := 2/5
  trailing_stop_distance := 1/400
  uptrend_required := true

/-- Claim C7: with free quote balance 1000, trading fraction 1%, price 50,
`stepSize` 0.01 (and `minQty` 0.01) and `minNotional` 10: the raw quantity
is 0.2, quantization leaves it at 0.2, the order value 10 passes the
`minNotional` check, and the quantity submitted to the market buy is 0.2. -/
theorem place_buy_order_scenario :
    ((1000:ℚ) * (1/100) / 50 = 1/5) ∧
    formatQuantity (1/5) (1/100) = some (1/5) ∧
    ((1/5:ℚ) * 50 = 10) ∧
    computeBuyQuantity scenarioConfig 1000 50 (some (1/100, 1/100)) (some 10) = some (1/5) := by
  have hfmt : formatQuantity (1/5) (1/100) = some (1/5) := by
    have h : ((1:ℚ)/100) = 1/10^2 := by norm_num
    rw [h, formatQuantity_pow10]
    norm_num
  refine ⟨by norm_num, hfmt, by norm_num, ?_⟩
  rw [computeBuyQuantity]
  norm_num [scenarioConfig, hfmt]

/-! ## Claim C2 — trailing-stop monotonicity -/

theorem trailingActivate_stop_mono (cfg : Config) (o : TrackedOrder) (price : ℚ) :
    o.stop_loss_price ≤ (trailingActivate cfg o price).stop_loss_price := by
  simp only [trailingActivate]
  split_ifs <;> simp_all <;> linarith

theorem trailingRatchet_stop_mono (cfg : Config) (o : TrackedOrder) :
    o.stop_loss_price ≤ (trailingRatchet cfg o).stop_loss_price := by
  simp only [trailingRatchet]
  split_ifs <;> simp_all
  all_goals linarith

theorem updateOrderOnPrice_stop_mono (cfg : Config) (o : TrackedOrder) (price : ℚ) :
    o.stop_loss_price ≤ (updateOrderOnPrice cfg o price).stop_loss_price := by
  rw [updateOrderOnPrice]
  exact le_trans
    (trailingActivate_stop_mono cfg
      {o with profit_loss := (price - o.entry_price) / o.entry_price * 100} price)
    (trailingRatchet_stop_mono cfg _)

/-- Claim C2: across any sequence of price observations fed to successive
evaluations of the same tracked order, `stop_loss_price` never decreases —
each single evaluation leaves it unchanged or raises it, and over a whole
observation sequence the final stop loss is at least the initial one. -/
theorem stop_loss_price_monotone :
    (∀ (cfg : Config) (o : TrackedOrder) (price : ℚ),
        o.stop_loss_price ≤ (updateOrderOnPrice cfg o price).stop_loss_price) ∧
    (∀ (cfg : Config) (o : TrackedOrder) (prices : List ℚ),
        o.stop_loss_price ≤ (prices.foldl (updateOrderOnPrice cfg) o).stop_loss_price) := by
  refine ⟨updateOrderOnPrice_stop_mono, fun cfg o prices => ?_⟩
  induction prices generalizing o with
  | nil => exact le_refl _
  | cons p ps ih =>
    exact le_trans (updateOrderOnPrice_stop_mono cfg o p) (ih _)

/-! ## Claim C5 — failed-sell attempt counting and eviction -/

theorem trailingActivate_sell_attempts (cfg : Config) (o : TrackedOrder) (price : ℚ) :
    (trailingActivate cfg o price).sell_attempts = o.sell_attempts := by
  simp only [trailingActivate]
  split_ifs <;> rfl

theorem trailingRatchet_sell_attempts (cfg : Config) (o : TrackedOrder) :
    (trailingRatchet cfg o).sell_attempts = o.sell_attempts := by
  simp only [trailingRatchet]
  split_ifs <;> rfl

/-- An order carrying three or more failed sell attempts is marked for
removal before any trigger evaluation (lines 1082-1085). -/
theorem checkOne_evicted (cfg : Config) (price : ℚ) (sell : ℤ → SellCallResult)
    (o : TrackedOrder) (h : 3 ≤ o.sell_attempts) :
    checkOne cfg price sell o =
      { kept := none, sellAttempted := false, ghostForced := false } := by
  rw [checkOne, if_pos h]

theorem checkSymbolOrders_all_evicted (cfg : Config) (price : ℚ)
    (sell : ℤ → SellCallResult) (orders : List TrackedOrder)
    (h : ∀ o ∈ orders, 3 ≤ o.sell_attempts) (acc : List TrackedOrder × Bool) :
    orders.foldl
      (fun acc o =>
        let r := checkOne cfg price sell o
        (acc.1 ++ r.kept.toList, acc.2 || r.ghostForced))
      acc = acc := by
  induction orders generalizing acc with
  | nil => rfl
  | cons o rest ih =>
    rw [List.foldl_cons]
    have hc := checkOne_evicted cfg price sell o (h o (List.mem_cons_self o rest))
    simp only [hc, Option.toList_none, List.append_nil, Bool.or_false, Prod.mk.eta]
    exact ih (fun o' ho' => h o' (List.mem_cons_of_mem o ho')) acc

/-- Claim C5: (1) an order whose `sell_attempts` counter is at least 3 is
dropped from tracking with no further sell attempted; (2) if the whole
tracked list is in that state, `check_order_status` empties it; (3) when a
target/stop trigger fires and the sell call fails (order kept), the counter
is incremented and a ghost-order check is forced exactly when the new
counter reaches 3. -/
theorem sell_attempt_counter_policy (cfg : Config) (price : ℚ)
    (sell : ℤ → SellCallResult) (o : TrackedOrder) :
    (3 ≤ o.sell_attempts →
      checkOne cfg price sell o =
        { kept := none, sellAttempted := false, ghostForced := false }) ∧
    (∀ orders : List TrackedOrder, (∀ o' ∈ orders, 3 ≤ o'.sell_attempts) →
      (checkSymbolOrders cfg (some price) sell orders).1 = []) ∧
    (o.sell_attempts < 3 →
      ∀ o₂, o₂ = trailingRatchet cfg (trailingActivate cfg
          {o with profit_loss := (price - o.entry_price) / o.entry_price * 100} price) →
      o₂.selling_in_progress = false →
      (o₂.target_price ≤ price ∨ price ≤ o₂.stop_loss_price) →
      sell o.orderId = .failKeep →
      checkOne cfg price sell o =
        { kept := some {o₂ with sell_attempts := o.sell_attempts + 1},
          sellAttempted := true,
          ghostForced := decide (3 ≤ o.sell_attempts + 1) }) := by
  refine ⟨checkOne_evicted cfg price sell o, ?_, ?_⟩
  · intro orders h
    rw [checkSymbolOrders, checkSymbolOrders_all_evicted cfg price sell orders h ([], false)]
  · intro hlt o₂ ho₂ hsell htrig hfail
    have hcnt : o₂.sell_attempts = o.sell_attempts := by
      rw [ho₂, trailingRatchet_sell_attempts, trailingActivate_sell_attempts]
    rw [checkOne, if_neg (by omega : ¬ 3 ≤ o.sell_attempts)]
    rw [← ho₂]
    rw [if_neg (by rw [hsell]; exact Bool.false_ne_true)]
    rw [if_pos htrig, hfail]
    simp only [hcnt]

/-- A concrete tracked order with `executedQty = 5`, not mid-sell. -/
def sampleOrderQty5 : TrackedOrder where
  orderId := 1
  symbol := "XUSDT"
  entry_price := 1
  executedQty := 5
  target_price := 2
  stop_loss_price := 1/2
  initial_stop_loss := 1/2
  highest_price := 1
  trailing_activated := false
  trailing_distance := none
  volatility := 0
  is_high_volatility := false
  sell_attempts := 0
  selling_in_progress := false
  profit_loss := 0
  buy_time := 0

/-- Witness for C5: with trailing disabled, an order whose counter is
already 3 is dropped without a sell attempt, and an order at its target
whose sell fails goes from 0 to 1 attempts with no ghost check forced. -/
theorem sell_attempt_counter_policy_witness :
    checkOne { scenarioConfig with trailing_stop := false } 2
      (fun _ => SellCallResult.failKeep) { sampleOrderQty5 with sell_attempts := 3 } =
      { kept := none, sellAttempted := false, ghostForced := false } ∧
    checkOne { scenarioConfig with trailing_stop := false } 2
      (fun _ => SellCallResult.failKeep) sampleOrderQty5 =
      { kept := some { sampleOrderQty5 with
          profit_loss := 100, highest_price := 2, sell_attempts := 1 },
        sellAttempted := true, ghostForced := false } := by
  have ho : trailingRatchet { scenarioConfig with trailing_stop := false }
      (trailingActivate { scenarioConfig with trailing_stop := false }
        { sampleOrderQty5 with profit_loss :=
            (2 - sampleOrderQty5.entry_price) / sampleOrderQty5.entry_price * 100 } 2) =
      { sampleOrderQty5 with profit_loss := 100, highest_price := 2 } := by
    norm_num [trailingActivate, trailingRatchet, sampleOrderQty5, scenarioConfig]
  constructor
  · exact (sell_attempt_counter_policy _ 2 (fun _ => SellCallResult.failKeep) _).1
      (by norm_num [sampleOrderQty5])
  · have h := (sell_attempt_counter_policy { scenarioConfig with trailing_stop := false } 2
      (fun _ => SellCallResult.failKeep) sampleOrderQty5).2.2
      (by norm_num [sampleOrderQty5])
      ({ sampleOrderQty5 with profit_loss := 100, highest_price := 2 }) ho.symm rfl
      (Or.inl (by norm_num [sampleOrderQty5])) rfl
    rw [h]
    norm_num [sampleOrderQty5]

/-! ## Claim C6 — rate-limiter blocking scenario -/

/-- Claim C6: with the rolling counter at 950 against a 1000/min ceiling, a
weight-100 request arriving before the 60 s window has elapsed waits for the
remainder of the window and then proceeds, leaving the accumulated weight at
exactly 100 (and the request count at 1, the window re-anchored at the wake
instant). -/
theorem rate_limiter_blocks_then_resets (st : RLState) (now : ℚ)
    (hw : st.request_weight = 950)
    (h : now - st.last_request_reset < 60) :
    rlCharge 1000 st now 100 =
      { state := { request_weight := 100, request_count := 1,
                   last_request_reset := now + (60 - (now - st.last_request_reset)) },
        waited := true } := by
  have h1 : ¬ (60 < now - st.last_request_reset) := by linarith
  have h3 : (0:ℚ) < 60 - (now - st.last_request_reset) := by linarith
  rw [rlCharge]
  simp only [if_neg h1]
  rw [if_pos (by omega : 1000 < st.request_weight + 100), if_pos h3]

/-- Witness for C6 at a concrete state: counter 950, window opened at 0,
request at instant 30 → waits, wakes at 60, counter 100. -/
theorem rate_limiter_blocks_then_resets_witness :
    rlCharge 1000 ⟨950, 7, 0⟩ 30 100 = ⟨⟨100, 1, 60⟩, true⟩ := by
  have h := rate_limiter_blocks_then_resets ⟨950, 7, 0⟩ 30 rfl (by norm_num)
  rw [h]
  norm_num

/-! ## Claim C8 — quarantine expiry -/

/-- Claim C8: a symbol quarantined at time `T` with expiry `H` hours is,
strictly before `T + H`, rejected by the buy-side problem check (with the
recorded reason) and skipped by universe selection, the entry surviving; at
or after `T + H` both checks delete the entry and let the symbol through. -/
theorem quarantine_expiry (reason : String) (T H now : ℚ) (recent : Option ℚ) :
    (now < T + 3600 * H →
      checkSymbolProblems (some ⟨reason, T, H⟩) recent now =
        (some (.problem reason), some ⟨reason, T, H⟩) ∧
      selectQuarantineCheck (some ⟨reason, T, H⟩) now = (true, some ⟨reason, T, H⟩)) ∧
    (T + 3600 * H ≤ now →
      checkSymbolProblems (some ⟨reason, T, H⟩) recent now = (none, none) ∧
      selectQuarantineCheck (some ⟨reason, T, H⟩) now = (false, none)) := by
  have key : ((now - T) / 3600 < H) ↔ now < T + 3600 * H := by
    rw [div_lt_iff₀ (by norm_num : (0:ℚ) < 3600)]
    constructor <;> intro <;> linarith
  constructor
  · intro h
    have hc : (now - T) / 3600 < H := key.2 h
    constructor <;> simp [checkSymbolProblems, selectQuarantineCheck, hc]
  · intro h
    have hc : ¬ ((now - T) / 3600 < H) := fun hlt => absurd h (not_le.2 (key.1 hlt))
    constructor <;> simp [checkSymbolProblems, selectQuarantineCheck, hc]

/-- Witness for C8: quarantine at `T = 0` for one hour; rejected at `t =
100 s` with its reason, entry kept; eligible again at `t = 3600 s`, entry
removed. -/
theorem quarantine_expiry_witness :
    checkSymbolProblems (some ⟨"q", 0, 1⟩) none 100 =
      (some (.problem "q"), some ⟨"q", 0, 1⟩) ∧
    checkSymbolProblems (some ⟨"q", 0, 1⟩) none 3600 = (none, none) :=
  ⟨((quarantine_expiry "q" 0 1 100 none).1 (by norm_num)).1,
   ((quarantine_expiry "q" 0 1 3600 none).2 (by norm_num)).1⟩

/-! ## Claim C3 — wholesale ghost-order clearing -/

/-- Claim C3: with a non-empty set of tracked orders and a (truthy) balance
response, the ghost-order check clears all tracking for the symbol both when
the base asset's free balance is zero or negative and when it is below 10%
of the tracked `executedQty` sum (mid-sell orders excluded). -/
theorem ghost_check_clears_all (now : ℚ) (ids : Option (List ℤ)) (base_asset : String)
    (bs : List (String × ℚ)) (orders : List TrackedOrder)
    (h₁ : orders ≠ []) (h₂ : bs ≠ []) :
    ((bs.lookup base_asset).getD 0 ≤ 0 →
      checkAndFixGhostOrders now ids base_asset (some bs) orders = []) ∧
    (0 < (bs.lookup base_asset).getD 0 →
      (bs.lookup base_asset).getD 0 < expectedQty orders * (1/10) →
      checkAndFixGhostOrders now ids base_asset (some bs) orders = []) := by
  have ho : ¬ (orders.isEmpty = true) := by
    simpa using h₁
  have hb : ¬ (bs.isEmpty = true) := by
    simpa using h₂
  constructor
  · intro hle
    simp only [checkAndFixGhostOrders, if_neg ho, if_neg hb, if_pos hle]
  · intro hpos hlt
    simp only [checkAndFixGhostOrders, if_neg ho, if_neg hb,
      if_neg (not_le.2 hpos), if_pos hlt]

/-- Witness for C3 (the spec's scenario): a tracked order of quantity 5
whose real free balance dropped to 0 is cleared; likewise with balance 0.4,
below 10% of the tracked sum. -/
theorem ghost_check_clears_all_witness :
    checkAndFixGhostOrders 0 none "X" (some [("X", 0)]) [sampleOrderQty5] = [] ∧
    checkAndFixGhostOrders 0 none "X" (some [("X", 2/5)]) [sampleOrderQty5] = [] :=
  ⟨(ghost_check_clears_all 0 none "X" [("X", 0)] [sampleOrderQty5]
      (by simp) (by simp)).1 (by simp [List.lookup]),
   (ghost_check_clears_all 0 none "X" [("X", 2/5)] [sampleOrderQty5]
      (by simp) (by simp)).2 (by simp [List.lookup])
      (by simp [List.lookup, expectedQty, sampleOrderQty5]; norm_num)⟩

/-! ## Claim C4 — stale-value fallback of the cached reads -/

/-- Claim C4, counterexample: `get_account_balance` with a stored, expired
balance entry that is 60 seconds old (TTL is 10 s, so well expired) and a
failing fetch returns the failure sentinel `None`, not the stale value — the
balance fallback only serves entries younger than 60 s (line 1221).  So the
claim is false for the balances read. -/
theorem stale_balance_fallback_counterexample :
    (getAccountBalance ⟨some [⟨"USDT", 5, 0⟩], some 0⟩ 60 none).1 = none ∧
    (⟨some [⟨"USDT", 5, 0⟩], some 0⟩ : BalCache).data = some [⟨"USDT", 5, 0⟩] ∧
    ((10:ℚ) ≤ 60 - 0) := by
  refine ⟨?_, rfl, by norm_num⟩
  have h1 : ¬ ((60:ℚ) - 0 < 10) := by norm_num
  have h2 : ¬ ((60:ℚ) - 0 < 60) := by norm_num
  simp [getAccountBalance, balDataTruthy, h1, h2]
  norm_num

/-- Claim C4, amended: on fetch failure a previously stored value is always
returned for ticker prices and for symbol metadata; for account balances the
stale value is returned only when the stored entry is less than 60 seconds
old, otherwise the read returns the failure sentinel. -/
theorem stale_fallback_on_fetch_error :
    (∀ (c : PriceCache) (now : ℚ) (sym : String) (p : ℚ),
        c.data.lookup sym = some p →
        (getTickerPrice c now sym none none).1 = some p) ∧
    (∀ (α : Type) (cache : List (String × (α × ℚ))) (now : ℚ) (sym : String)
        (info : α) (t : ℚ),
        cache.lookup sym = some (info, t) →
        (getSymbolInfo cache now sym none).1 = some info) ∧
    (∀ (c : BalCache) (now : ℚ) (d : List BalanceEntry) (t : ℚ),
        c.data = some d → d ≠ [] → c.timestamp = some t → now - t < 60 →
        (getAccountBalance c now none).1 = some d) := by
  refine ⟨?_, ?_, ?_⟩
  · intro c now sym p hl
    rw [getTickerPrice]
    rcases ht : c.timestamp with _ | t
    · simp [ht, hl]
    · simp only [ht, hl]
      by_cases h5 : now - t < 5
      · simp [h5]
      · simp only [if_neg h5]
        split_ifs <;> simp [hl]
  · intro α cache now sym info t hl
    rw [getSymbolInfo]
    simp only [hl]
    split_ifs <;> simp [hl]
  · intro c now d t hd hne ht hage
    have hde : d.isEmpty = false := by simpa using hne
    rw [getAccountBalance]
    simp only [hd, ht, hde, balDataTruthy]
    split_ifs with h1 h2 <;> simp_all

/-- Witness for the amended C4 across the three reads: expired price entry
(age 50 s, TTL 5 s), expired symbol info (age 100000 s, TTL 86400 s), and a
30-second-old balance entry, each with a failing fetch, all served stale. -/
theorem stale_fallback_on_fetch_error_witness :
    (getTickerPrice ⟨[("BTCUSDT", 100)], some 0⟩ 50 "BTCUSDT" none none).1 = some 100 ∧
    (getSymbolInfo [("BTCUSDT", (7, 0))] 100000 "BTCUSDT" none).1 = some 7 ∧
    (getAccountBalance ⟨some [⟨"USDT", 5, 0⟩], some 0⟩ 30 none).1 = some [⟨"USDT", 5, 0⟩] :=
  ⟨stale_fallback_on_fetch_error.1 ⟨[("BTCUSDT", 100)], some 0⟩ 50 "BTCUSDT" 100
      (by simp [List.lookup]),
   stale_fallback_on_fetch_error.2.1 ℕ [("BTCUSDT", (7, 0))] 100000 "BTCUSDT" 7 0
      (by simp [List.lookup]),
   stale_fallback_on_fetch_error.2.2 ⟨some [⟨"USDT", 5, 0⟩], some 0⟩ 30 [⟨"USDT", 5, 0⟩] 0
      rfl (by simp) rfl (by norm_num)⟩

/-! ## Claim C9 — universe size and ordering of `select_active_coins` -/

theorem fillActiveCoins_shape (maxN : ℕ) (pairs : List (String × TickerStat)) :
    ∀ acc : List String,
      ∃ chosen : List (String × TickerStat),
        fillActiveCoins maxN pairs acc = acc ++ chosen.map Prod.fst ∧
        chosen.Sublist pairs := by
  induction pairs with
  | nil =>
    intro acc
    exact ⟨[], by simp [fillActiveCoins], List.nil_sublist _⟩
  | cons hd rest ih =>
    intro acc
    obtain ⟨sym, st⟩ := hd
    rw [fillActiveCoins]
    by_cases hmem : sym ∈ acc
    · rw [if_pos hmem]
      obtain ⟨c, hc, hsub⟩ := ih acc
      exact ⟨c, hc, hsub.cons _⟩
    · rw [if_neg hmem]
      by_cases hlen : maxN ≤ (acc ++ [sym]).length
      · rw [if_pos hlen]
        exact ⟨[(sym, st)], by simp, (List.nil_sublist rest).cons₂ _⟩
      · rw [if_neg hlen]
        obtain ⟨c, hc, hsub⟩ := ih (acc ++ [sym])
        exact ⟨(sym, st) :: c, by simpa [List.append_assoc] using hc, hsub.cons₂ _⟩

theorem fillActiveCoins_length_le (maxN : ℕ) (pairs : List (String × TickerStat)) :
    ∀ acc : List String, acc.length < maxN →
      (fillActiveCoins maxN pairs acc).length ≤ maxN := by
  induction pairs with
  | nil =>
    intro acc hacc
    rw [fillActiveCoins]
    omega
  | cons hd rest ih =>
    intro acc hacc
    obtain ⟨sym, st⟩ := hd
    rw [fillActiveCoins]
    by_cases hmem : sym ∈ acc
    · rw [if_pos hmem]
      exact ih acc hacc
    · rw [if_neg hmem]
      by_cases hlen : maxN ≤ (acc ++ [sym]).length
      · rw [if_pos hlen]
        simp only [List.length_append, List.length_cons, List.length_nil] at hlen ⊢
        omega
      · rw [if_neg hlen]
        exact ih (acc ++ [sym]) (by simpa using lt_of_not_le hlen)

/-- Configuration for the C9 counterexample: universe capped at one symbol,
allow-list `["A"]`, quote asset `"U"`, volume floor 1, no uptrend gate. -/
def capConfig : Config :=
  { scenarioConfig with
      quote_asset := "U"
      max_active_coins := 1
      min_volume_24h := 1
      include_coins := ["A"]
      uptrend_required := false }

/-- Ticker stats for the C9 counterexample: two eligible pairs. -/
def capStats : List (String × TickerStat) :=
  [("AU", { price := 1, volume_24h := 1, price_change_24h_pct := 5, base_asset := "A" }),
   ("BU", { price := 1, volume_24h := 1, price_change_24h_pct := 4, base_asset := "B" })]

/-- Claim C9, counterexample: with `max_active_coins = 1` and the single
allow-list symbol `AU` force-included, the fill loop still appends the
scored symbol `BU` before testing the cap (the length check of line 327
runs only after an append), so the produced universe has 2 > 1 symbols.
The claim's `at most max_active_coins` bound is therefore false. -/
theorem select_active_coins_cap_counterexample :
    selectActiveCoins capConfig 0 capStats [] = ["AU", "BU"] ∧
    capConfig.max_active_coins = 1 ∧
    ¬ ((selectActiveCoins capConfig 0 capStats []).length ≤ capConfig.max_active_coins) := by
  have hAU : ("A" ++ "U" : String) = "AU" := rfl
  have e1 : (("AU" : String) == "AU") = true := rfl
  have e2 : (("AU" : String) == "BU") = false := rfl
  have ne1 : ("BU" : String) ≠ "AU" := by decide
  have ne2 : ("AU" : String) ≠ "BU" := by decide
  have h : selectActiveCoins capConfig 0 capStats [] = ["AU", "BU"] := by
    norm_num [selectActiveCoins, rankedPairs, forcedCoins, fillActiveCoins,
      isStableExcluded, listEndsWith, containsSeg, startsWithSeg, quarantineActiveAt,
      coinScore, List.insertionSort, List.orderedInsert, List.lookup, List.filter,
      List.filterMap, capConfig, capStats, scenarioConfig, min_def, hAU, e1, e2, ne1, ne2]
  refine ⟨h, rfl, ?_⟩
  rw [h]
  norm_num [capConfig, scenarioConfig]

/-- Claim C9, amended: `select_active_coins` always places the
force-included allow-list symbols (those passing the volume/uptrend gates)
first, and fills the remainder with a subsequence of the score-descending
candidate ranking (hence in descending score order); the length bound `≤
max_active_coins` holds whenever the force-included symbols number strictly
fewer than `max_active_coins` — with `max_active_coins` or more forced
symbols the loop can append one extra scored symbol past the cap, as the
counterexample shows. -/
theorem select_active_coins_ordering_and_cap (cfg : Config) (now : ℚ)
    (tickerStats : List (String × TickerStat)) (problems : List (String × Problem)) :
    (∃ chosen : List (String × TickerStat),
        selectActiveCoins cfg now tickerStats problems =
          forcedCoins cfg tickerStats ++ chosen.map Prod.fst ∧
        chosen.Sublist (rankedPairs cfg now tickerStats problems) ∧
        chosen.Sorted (fun a b => coinScore cfg b.2 ≤ coinScore cfg a.2)) ∧
    ((forcedCoins cfg tickerStats).length < cfg.max_active_coins →
      (selectActiveCoins cfg now tickerStats problems).length ≤ cfg.max_active_coins) := by
  constructor
  · obtain ⟨chosen, hc, hsub⟩ :=
      fillActiveCoins_shape cfg.max_active_coins
        (rankedPairs cfg now tickerStats problems) (forcedCoins cfg tickerStats)
    refine ⟨chosen, hc, hsub, ?_⟩
    haveI : IsTotal (String × TickerStat)
        (fun a b => coinScore cfg b.2 ≤ coinScore cfg a.2) := ⟨fun _ _ => le_total _ _⟩
    haveI : IsTrans (String × TickerStat)
        (fun a b => coinScore cfg b.2 ≤ coinScore cfg a.2) :=
      ⟨fun _ _ _ h1 h2 => le_trans h2 h1⟩
    have hsorted : (rankedPairs cfg now tickerStats problems).Sorted
        (fun a b => coinScore cfg b.2 ≤ coinScore cfg a.2) := by
      simp only [rankedPairs]
      exact List.sorted_insertionSort _ _
    exact List.Pairwise.sublist hsub hsorted
  · intro hlt
    exact fillActiveCoins_length_le cfg.max_active_coins _ _ hlt

/-- Witness for the amended C9 at the counterexample's stats but with the
cap raised to 5: one forced symbol < 5, so the bound holds. -/
theorem select_active_coins_ordering_and_cap_witness :
    (forcedCoins { capConfig with max_active_coins := 5 } capStats).length <
      ({ capConfig with max_active_coins := 5 } : Config).max_active_coins ∧
    (selectActiveCoins { capConfig with max_active_coins := 5 } 0 capStats []).length ≤
      ({ capConfig with max_active_coins := 5 } : Config).max_active_coins := by
  have hf : (forcedCoins { capConfig with max_active_coins := 5 } capStats).length < 5 := by
    have hAU : ("A" ++ "U" : String) = "AU" := rfl
    have e1 : (("AU" : String) == "AU") = true := rfl
    norm_num [forcedCoins, List.filterMap, List.lookup, capConfig, capStats,
      scenarioConfig, hAU, e1]
  exact ⟨hf,
    (select_active_coins_ordering_and_cap { capConfig with max_active_coins := 5 }
      0 capStats []).2 hf⟩

end TrendingSniper
